import Mathlib

/-!
Shallow embedding of the CivReply Drafts core pipeline
(`worker_autoreply.py`, `retriever_catalog.py`, `drafts_module.py`):
topic classification, risk gating, the autosend decision, link resolution
over the built-in council catalog, catalog merging, and reply composition.

Python strings are modelled as `List Char` (`Str`); `str.lower` is modelled
on its ASCII fragment (`Char.toLower`), which agrees with Python on every
text appearing in the development.  Python `re.search` is modelled by a
small regular-expression interpreter (`pySearch`) covering exactly the
constructs used by the source patterns: literals, `\s` / `\d` / `.`
character classes, alternation, option, `\s*` / `.*` / `\d*` (starred
classes), counted digit repetitions (unrolled), and the `\b` word-boundary
assertion.
-/

/-- Python strings, modelled as lists of characters. -/
abbrev Str := List Char

/-- Characters matched by Python `\s` (ASCII fragment). -/
def isPySpace (c : Char) : Bool :=
  c == ' ' || c == '\t' || c == '\n' || c == '\r' || c == '\x0b' || c == '\x0c'

/-- Python `str.lower` (ASCII fragment). -/
def pyLower (s : Str) : Str := s.map Char.toLower

/-- Python substring test `needle in hay`. -/
def strIn (needle hay : Str) : Bool :=
  (List.range (hay.length + 1)).any (fun i => needle.isPrefixOf (hay.drop i))

/-- Python `str.strip()` (strip whitespace from both ends). -/
def pyStrip (s : Str) : Str :=
  ((s.dropWhile isPySpace).reverse.dropWhile isPySpace).reverse

mutual

/-- Python `re.sub(r"\s+", " ", s)`: collapse each whitespace run to one space. -/
def collapseWs : Str → Str
  | [] => []
  | c :: rest => if isPySpace c then ' ' :: collapseWsSkip rest else c :: collapseWs rest

/-- Helper of `collapseWs`: inside a whitespace run. -/
def collapseWsSkip : Str → Str
  | [] => []
  | c :: rest => if isPySpace c then collapseWsSkip rest else c :: collapseWs rest

end

/-- Python `str.split()` (split on whitespace runs, dropping empty tokens);
`acc` accumulates the current token reversed. -/
def splitWsAux : Str → Str → List Str
  | [], acc => if acc.isEmpty then [] else [acc.reverse]
  | c :: rest, acc =>
    if isPySpace c then
      (if acc.isEmpty then splitWsAux rest [] else acc.reverse :: splitWsAux rest [])
    else splitWsAux rest (c :: acc)

/-- Python `str.split()` with no arguments. -/
def pySplitWs (s : Str) : List Str := splitWsAux s []

/-- Character classes appearing in the source regexes: `\s`, `\d`, `.`. -/
inductive CK : Type
  | ws : CK
  | digit : CK
  | dot : CK
deriving DecidableEq

/-- Does character `c` belong to class `k`?  (`.` excludes the newline, as in
Python without `re.DOTALL`.) -/
def ckMatch : CK → Char → Bool
  | .ws, c => isPySpace c
  | .digit, c => c.isDigit
  | .dot, c => c != '\n'

/-- Regular expressions, restricted to the constructs used by the source.
Stars occur in the source only over single character classes (`\s*`, `.*`,
`\d*`), which `starCls` captures; this keeps the interpreter structurally
recursive. -/
inductive RE : Type
  | eps : RE
  | lit (c : Char) : RE
  | cls (k : CK) : RE
  | seq (a b : RE) : RE
  | alt (a b : RE) : RE
  | starCls (k : CK) : RE
  | wb : RE

/-- Python word characters (ASCII fragment): letters, digits, underscore. -/
def isWordChar (c : Char) : Bool := c.isAlphanum || c == '_'

/-- Is the character at index `i` of `t` a word character (`false` out of range)? -/
def wordAt (t : Str) (i : Nat) : Bool :=
  match t.get? i with
  | some c => isWordChar c
  | none => false

/-- Python `\b`: position `i` of `t` is a word boundary. -/
def atBoundary (t : Str) (i : Nat) : Bool :=
  match i with
  | 0 => wordAt t 0
  | j + 1 => wordAt t j != wordAt t (j + 1)

/-- Length of the run of class-`k` characters at the head of a list. -/
def classRun (k : CK) : Str → Nat
  | [] => 0
  | c :: rest => if ckMatch k c then classRun k rest + 1 else 0

/-- All end positions of matches of `r` in `t` starting at position `i`. -/
def endsFrom (t : Str) : RE → Nat → List Nat
  | .eps, i => [i]
  | .lit c, i =>
    match t.get? i with
    | some c2 => if c2 == c then [i + 1] else []
    | none => []
  | .cls k, i =>
    match t.get? i with
    | some c2 => if ckMatch k c2 then [i + 1] else []
    | none => []
  | .seq a b, i => (endsFrom t a i).flatMap (fun j => endsFrom t b j)
  | .alt a b, i => endsFrom t a i ++ endsFrom t b i
  | .starCls k, i => (List.range (classRun k (t.drop i) + 1)).map (fun d => i + d)
  | .wb, i => if atBoundary t i then [i] else []

/-- Python `re.search(pattern, t) is not None`: some match starts somewhere in `t`. -/
def pySearch (r : RE) (t : Str) : Bool :=
  (List.range (t.length + 1)).any (fun i => !(endsFrom t r i).isEmpty)

/-- Literal word as a regex. -/
def w (s : String) : RE := s.toList.foldr (fun c r => RE.seq (RE.lit c) r) RE.eps

/-- Sequencing of a list of regexes. -/
def reCat (l : List RE) : RE := l.foldr RE.seq RE.eps

/-- `r?` (optional). -/
def reOpt (r : RE) : RE := RE.alt r RE.eps

/-- `\s*`. -/
def sStar : RE := RE.starCls CK.ws

/-- `.*`. -/
def dotStar : RE := RE.starCls CK.dot

/-- `\d`. -/
def dChar : RE := RE.cls CK.digit

/-- The body of `classify_risk`, textually identical in `worker_autoreply.py`
and `drafts_module.py` up to the trigger tables, so embedded once and
instantiated per module: RED first (absorbing), else AMBER, PII upgrades
GREEN to AMBER and always appends its reason, default reason when none. -/
def riskAssess (redL amberL : List Str) (piiL : List RE) (text : Str) : Str × List Str :=
  let t := pyLower text
  let rr :=
    if redL.any (fun k => strIn k t) then
      ("RED".toList, ["High-risk keyword".toList])
    else if amberL.any (fun k => strIn k t) then
      ("AMBER".toList, ["Potential complaint/escalation".toList])
    else ("GREEN".toList, ([] : List Str))
  let rr :=
    if piiL.any (fun p => pySearch p t) then
      (if rr.1 = "GREEN".toList then "AMBER".toList else rr.1,
       rr.2 ++ ["PII detected".toList])
    else rr
  if rr.2.isEmpty then (rr.1, ["No risk triggers detected".toList]) else rr

/-! ## worker_autoreply.py -/

namespace Worker

/-- `GREEN_TOPICS` parsed from the default `GREEN_TOPICS` env value
`"waste,rates,libraries,animals,opening hours,general info"`. -/
def GREEN_TOPICS_default : List Str :=
  ["waste".toList, "rates".toList, "libraries".toList, "animals".toList,
   "opening hours".toList, "general info".toList]

/-- `TOPIC_KEYWORDS` (insertion order preserved: it drives `max` tie-breaking). -/
def TOPIC_KEYWORDS : List (Str × List Str) :=
  [("waste".toList,
    ["bin".toList, "bins".toList, "waste".toList, "rubbish".toList, "garbage".toList,
     "recycling".toList, "collection".toList, "hard rubbish".toList, "green waste".toList,
     "fogo".toList]),
   ("rates".toList,
    ["rates".toList, "rate notice".toList, "pay rates".toList, "instalment".toList,
     "installment".toList, "due date".toList, "valuation".toList]),
   ("libraries".toList,
    ["library".toList, "libraries".toList, "books".toList, "tarneit library".toList,
     "werribee library".toList, "point cook library".toList, "hours".toList]),
   ("animals".toList,
    ["dog".toList, "cat".toList, "animal".toList, "pet registration".toList,
     "microchip".toList, "desex".toList]),
   ("opening hours".toList,
    ["opening hours".toList, "hours".toList, "what time".toList, "open today".toList,
     "public holiday hours".toList, "closing time".toList]),
   ("general info".toList,
    ["information".toList, "contact".toList, "help".toList, "assistance".toList,
     "services".toList])]

/-- Keyword-hit scores of each topic on lower-cased text `t`
(`scores[topic] += 1` for each keyword contained in `t`). -/
def scoresOf (t : Str) : List (Str × Nat) :=
  TOPIC_KEYWORDS.map (fun p => (p.1, (p.2.filter (fun kw => strIn kw t)).length))

/-- Python `max(iterable)` keyed by score: the first element of maximal score
(`max` keeps the current best unless a strictly greater score appears). -/
def pyMaxAux : List (Str × Nat) → Str × Nat → Str × Nat
  | [], best => best
  | p :: rest, best => pyMaxAux rest (if best.2 < p.2 then p else best)

/-- `max(scores, key=scores.get)` over the (never empty) score list. -/
def maxTopic : List (Str × Nat) → Str
  | [] => "general info".toList
  | p :: rest => (pyMaxAux rest p).1

/-- First-match lookup in an association list (Python `dict` read). -/
def dictGet {α : Type} : List (Str × α) → Str → Option α
  | [], _ => none
  | p :: rest, k => if p.1 = k then some p.2 else dictGet rest k

/-- `classify_topic`: single highest-scoring topic ("general info" when every
score is zero) and whether it lies in the green-topic list. -/
def classify_topic (green : List Str) (text : Str) : Str × Bool :=
  let t := pyLower text
  let scores := scoresOf t
  let topic := maxTopic scores
  let topic := if (dictGet scores topic).getD 0 = 0 then "general info".toList else topic
  (topic, decide (topic ∈ green))

/-- `AMBER_TRIGGERS`. -/
def AMBER_TRIGGERS : List Str :=
  ["complaint".toList, "unhappy".toList, "delay".toList, "refund".toList, "appeal".toList,
   "escalate".toList, "supervisor".toList, "deadline".toList, "urgent".toList,
   "threat".toList, "media".toList, "ombudsman".toList, "privacy".toList,
   "frustrated".toList, "angry".toList]

/-- `RED_TRIGGERS`. -/
def RED_TRIGGERS : List Str :=
  ["foi".toList, "freedom of information".toList, "accident".toList, "injury".toList,
   "legal".toList, "threaten".toList, "assault".toList, "payment dispute".toList,
   "chargeback".toList, "personal information request".toList, "vulnerable".toList,
   "danger".toList, "police".toList]

/-- `re.compile(r"\b\d{8,}\b")`: `\d{8,}` unrolled as eight digits then `\d*`. -/
def piiLongId : RE :=
  reCat [RE.wb, dChar, dChar, dChar, dChar, dChar, dChar, dChar, dChar,
         RE.starCls CK.digit, RE.wb]

/-- `re.compile(r"\b\+?\d{9,15}\b")`: `\d{9,15}` unrolled as nine digits then
six optional digits. -/
def piiPhone : RE :=
  reCat [RE.wb, reOpt (RE.lit '+'), dChar, dChar, dChar, dChar, dChar, dChar, dChar,
         dChar, dChar, reOpt dChar, reOpt dChar, reOpt dChar, reOpt dChar, reOpt dChar,
         reOpt dChar, RE.wb]

/-- `PII_PATTERNS`. -/
def PII_PATTERNS : List RE := [piiLongId, piiPhone]

/-- `classify_risk` of `worker_autoreply.py` (shared body `riskAssess`,
instantiated with this module's trigger tables). -/
def classify_risk (text : Str) : Str × List Str :=
  riskAssess RED_TRIGGERS AMBER_TRIGGERS PII_PATTERNS text

/-- The autosend decision of `process_message`:
`AUTO_SEND_ALL or (topic_is_green and risk == "GREEN" and AUTO_SEND_GREEN)`. -/
def canAutosend (autoSendAll autoSendGreen : Bool) (topicIsGreen : Bool) (risk : Str) : Bool :=
  autoSendAll || (topicIsGreen && decide (risk = "GREEN".toList) && autoSendGreen)

/-- The end-to-end green-only decision (`AUTO_SEND_ALL` off, `AUTO_SEND_GREEN` on)
as a function of the enquiry text. -/
def greenOnlyDecision (green : List Str) (text : Str) : Bool :=
  canAutosend false true (classify_topic green text).2 (classify_risk text).1

/-- Formalisation of the claim-side notion "the topics the text matches":
all topics with at least one keyword hit, in table order.  Used only to state
claims; the code itself never builds this list. -/
def matchedTopics (text : Str) : List Str :=
  ((scoresOf (pyLower text)).filter (fun p => 0 < p.2)).map (fun p => p.1)

end Worker

/-! ## retriever_catalog.py -/

namespace Retriever

/-- `MAX_LINKS`. -/
def MAX_LINKS : Nat := 6

/-- One catalog entry: `{"title": ..., "url": ...}`. -/
structure Entry : Type where
  title : Str
  url : Str
deriving DecidableEq

/-- Per-council data: `{"base": ..., "topics": {...}}`, topics as an
insertion-ordered association list (a Python `dict` has unique keys). -/
structure CouncilData : Type where
  base : Option Str
  topics : List (Str × Entry)
deriving DecidableEq

/-- A catalog: council name → council data. -/
abbrev Catalog := List (Str × CouncilData)

/-- First-match lookup in an association list (Python `dict` read). -/
def dGet {α : Type} : List (Str × α) → Str → Option α
  | [], _ => none
  | p :: rest, k => if p.1 = k then some p.2 else dGet rest k

/-- `TOPIC_RULES`: classification rules mapping email text to topic keys
(order matters).  Each Python regex is transcribed into the `RE` syntax. -/
def TOPIC_RULES : List (Str × List RE) :=
  [("book_hard_waste".toList,
    [reCat [RE.wb, RE.alt (w "book") (w "booking"), RE.wb, dotStar, w "hard", sStar,
            RE.alt (w "waste") (w "rubbish")],
     reCat [w "hard", sStar, RE.alt (w "waste") (w "rubbish"), dotStar, RE.wb, w "book"]]),
   ("hard_waste".toList,
    [reCat [w "hard", sStar, RE.alt (w "waste") (w "rubbish")],
     reCat [RE.wb, w "bulky", RE.wb],
     w "mattress"]),
   ("find_bin_day".toList,
    [reCat [RE.wb, RE.alt (w "bin") (w "waste"), sStar,
            RE.alt (w "day") (RE.alt (w "calendar") (w "schedule"))],
     reCat [w "what", sStar, w "day", sStar, RE.alt (w "is") (w "are"), sStar, dotStar,
            w "bin"]]),
   ("bin_requests".toList,
    [reCat [RE.alt (w "broken") (RE.alt (w "damaged") (w "stolen")), sStar, w "bin"],
     reCat [w "replace", sStar, w "bin"],
     reCat [w "new", sStar, w "bin"],
     reCat [w "miss", RE.alt (w "ed") (w "ing"), sStar, w "bin"],
     reCat [w "bin", sStar, w "not", sStar, w "collected"]]),
   ("fogo".toList,
    [reCat [RE.wb, w "FOGO", RE.wb],
     reCat [w "green", sStar, w "bin"],
     reCat [w "garden", sStar, w "waste"],
     w "organics"]),
   ("recycling_az".toList,
    [reCat [RE.wb,
            RE.alt (reCat [w "a", reOpt (RE.lit '-'), w "z"])
                   (reCat [w "what", sStar, w "goes", sStar, w "in"]),
            RE.wb],
     reCat [w "recycl", RE.alt (w "e") (w "ing"), sStar, w "guide"]]),
   ("transfer_station".toList,
    [reCat [RE.wb, w "tip", RE.wb],
     reCat [w "transfer", sStar, w "station"],
     reCat [RE.wb, w "landfill", RE.wb],
     reCat [w "resource", sStar, w "recovery"]]),
   ("hazardous_waste".toList,
    [reCat [w "hazard", reOpt (w "ous")],
     reCat [w "chemical", reOpt (w "s")],
     w "paint",
     w "battery",
     reCat [w "e", reOpt (RE.lit '-'), w "waste"],
     w "asbestos"]),
   ("waste_overview".toList,
    [reCat [RE.wb,
            RE.alt (w "bin") (RE.alt (w "waste") (RE.alt (w "recycling") (w "collection"))),
            RE.wb]]),
   ("household_bins".toList,
    [reCat [w "household", sStar, w "bin"]]),
   ("disability_parking".toList,
    [reCat [w "disability", sStar, w "parking"],
     reCat [RE.wb, w "DPP", RE.wb]]),
   ("parking_fine_review".toList,
    [reCat [RE.alt (w "appeal") (w "review"), sStar, RE.alt (w "fine") (w "infringement")],
     reCat [RE.wb, w "nominat", RE.alt (w "e") (w "ion"), RE.wb]]),
   ("parking_fines_pay".toList,
    [reCat [w "parking", sStar, RE.alt (w "fine") (w "infringement"), dotStar,
            RE.alt (w "pay") (w "payment")],
     reCat [RE.wb, w "pay", sStar, w "fine", RE.wb]]),
   ("parking_permits_regs".toList,
    [reCat [w "parking", sStar, w "permit"],
     reCat [w "resident", sStar, w "permit"],
     reCat [w "visitor", sStar, w "permit"],
     reCat [w "parking", sStar, w "regulation"]]),
   ("rates_payment_plan".toList,
    [reCat [w "payment", sStar, w "plan", dotStar, w "rates"]]),
   ("rates_hardship".toList,
    [reCat [w "rate", reOpt (w "s"), sStar, RE.alt (w "hardship") (w "assistance")]]),
   ("rates_pay".toList,
    [reCat [RE.wb, w "pay", reOpt (w "ing"), sStar, w "rate", reOpt (w "s"), RE.wb],
     reCat [w "rate", reOpt (w "s"), sStar, w "payment"]]),
   ("rates_home".toList,
    [reCat [RE.wb, w "rate", reOpt (w "s"), RE.wb],
     reCat [RE.wb, w "valuation", RE.wb]]),
   ("pet_registration".toList,
    [reCat [w "register", sStar, RE.alt (w "dog") (RE.alt (w "cat") (w "pet"))],
     reCat [w "pet", sStar, w "registration"],
     w "microchip"]),
   ("animal_permits".toList,
    [reCat [w "animal", sStar, w "permit"]]),
   ("barking_dog".toList,
    [reCat [RE.wb, w "bark", reOpt (w "ing"), RE.wb],
     reCat [w "dog", sStar, w "noise"],
     reCat [w "dog", sStar, w "attack"]]),
   ("report_issue".toList,
    [reCat [RE.wb, w "report", RE.wb],
     reCat [w "request", sStar, RE.alt (w "fix") (w "service")],
     w "pothole",
     w "footpath",
     reCat [w "street", sStar, w "light"],
     w "graffiti"]),
   ("noise".toList,
    [reCat [RE.wb, w "noise", RE.wb],
     reCat [w "loud", sStar, w "music"],
     w "party",
     reCat [w "construction", sStar, w "noise"]]),
   ("graffiti".toList,
    [reCat [RE.wb, w "graffiti", RE.wb]]),
   ("trees_nature_strips".toList,
    [reCat [w "street", sStar, w "tree"],
     reCat [w "nature", sStar, w "strip"],
     reCat [w "prun", RE.alt (w "e") (w "ing")]]),
   ("planning_permits".toList,
    [reCat [w "planning", sStar, w "permit"],
     reCat [w "plan", sStar, w "permit"],
     reCat [w "advertis", RE.alt (w "ing") (w "ed")]]),
   ("building_permits".toList,
    [reCat [w "building", sStar, w "permit"],
     w "construction",
     w "demolition",
     w "surveyor"]),
   ("local_laws".toList,
    [reCat [w "local", sStar, w "law"],
     reCat [w "footpath", sStar, RE.alt (w "trading") (w "dining")],
     reCat [w "amplified", sStar, w "sound"]]),
   ("libraries".toList,
    [reCat [RE.wb, w "librar", RE.alt (w "y") (w "ies"), RE.wb],
     reCat [w "library", sStar, w "hours"],
     w "borrow",
     w "membership"]),
   ("hire_a_space".toList,
    [reCat [w "venue", sStar, w "hire"],
     reCat [w "hall", sStar, w "hire"],
     reCat [w "community", sStar, w "centre"],
     reCat [w "book", sStar, reOpt (reCat [w "a", sStar]), w "venue"]]),
   ("sports_bookings".toList,
    [reCat [w "sport", reOpt (w "s"),
            RE.alt (w "ground") (RE.alt (w " oval") (w " pavilion"))],
     reCat [w "book", sStar, RE.alt (w "ground") (RE.alt (w "oval") (w "court"))],
     reCat [w "seasonal", sStar, w "allocation"]]),
   ("kindergarten_register".toList,
    [reCat [RE.wb, w "kind", RE.alt (w "er") (w "ergarten"), RE.wb],
     reCat [w "enrol", reOpt (w "l")],
     reCat [w "child", sStar, w "care"],
     reCat [w "early", sStar, w "years"]]),
   ("immunisation".toList,
    [reCat [RE.wb, w "immuni", RE.alt (RE.lit 's') (RE.lit 'z'), w "ation", RE.wb],
     reCat [w "vaccin", RE.alt (w "e") (w "ation")]]),
   ("leisure_centres".toList,
    [reCat [RE.wb, w "aquapulse", RE.wb],
     reCat [RE.wb, w "pool", RE.wb],
     reCat [w "leisure", sStar, w "centre"]]),
   ("foi".toList,
    [reCat [w "freedom", sStar, w "of", sStar, w "information"],
     reCat [RE.wb, w "FOI", RE.wb]]),
   ("privacy".toList,
    [reCat [RE.wb, w "privacy", RE.wb],
     reCat [w "personal", sStar, w "information"]]),
   ("contact".toList,
    [reCat [RE.wb, w "contact", RE.wb],
     w "phone",
     w "email",
     reCat [w "customer", sStar, w "service"]])]

/-- One iteration of the `_classify` loop: append the rule's topic when some
pattern matches and it is not yet collected. -/
def stepHits (t : Str) (r : Str × List RE) (hits : List Str) : List Str :=
  if r.2.any (fun p => pySearch p t) && !(decide (r.1 ∈ hits)) then hits ++ [r.1]
  else hits

/-- Loop of `_classify`: scan the rules, appending each matching topic
not already collected, stopping once four are collected. -/
def classifyAux (t : Str) : List (Str × List RE) → List Str → List Str
  | [], hits => hits
  | r :: rest, hits =>
    let hits2 := stepHits t r hits
    if 4 ≤ hits2.length then hits2 else classifyAux t rest hits2

/-- `_classify`: up to 4 topic keys matching the email text, with the
`["contact"]` fallback. -/
def _classify (text : Str) : List Str :=
  let t := pyLower text
  let hits := classifyAux t TOPIC_RULES []
  if hits.isEmpty then ["contact".toList] else hits

end Retriever

/-! ## HTML escaping (Python `html.escape` and the worker's manual chain) -/

/-- Expansion of one character under Python `html.escape(s)` (default
`quote=True`).  The source's sequential `str.replace` chain equals this
character-wise map because no replacement output re-triggers a later rule. -/
def escChar (c : Char) : Str :=
  if c == '&' then "&amp;".toList
  else if c == '<' then "&lt;".toList
  else if c == '>' then "&gt;".toList
  else if c == '"' then "&quot;".toList
  else if c == '\x27' then "&#x27;".toList
  else [c]

/-- Python `html.escape(s)` (default `quote=True`). -/
def htmlEscape (s : Str) : Str := s.flatMap escChar

/-- Expansion of one character under the worker's manual
`.replace("&","&amp;").replace("<","&lt;").replace(">","&gt;")` chain. -/
def escChar3 (c : Char) : Str :=
  if c == '&' then "&amp;".toList
  else if c == '<' then "&lt;".toList
  else if c == '>' then "&gt;".toList
  else [c]

/-- The worker's three-entity escape. -/
def esc3 (s : Str) : Str := s.flatMap escChar3

/-- `s.replace("\n", "<br>")`, character-wise. -/
def brChar (c : Char) : Str := if c == '\n' then "<br>".toList else [c]

/-- `s.replace("\n", "<br>")`. -/
def brReplace (s : Str) : Str := s.flatMap brChar

namespace Retriever

/-- `BUILTIN_CATALOG["Wyndham City Council"]["topics"]`, in source order. -/
def wyndhamTopics : List (Str × Entry) :=
  [("waste_overview".toList,
    ⟨"About Waste & Recycling".toList,
     "https://www.wyndham.vic.gov.au/services/about-waste-and-recycling".toList⟩),
   ("household_bins".toList,
    ⟨"Household Bin Services".toList,
     "https://www.wyndham.vic.gov.au/services/waste-recycling/household-bins/household-bin-services".toList⟩),
   ("find_bin_day".toList,
    ⟨"Find My Bin Collection Day".toList,
     "https://digital.wyndham.vic.gov.au/myWyndham/".toList⟩),
   ("waste_calendar_pdf".toList,
    ⟨"Waste Collection Map & Calendar (PDF)".toList,
     "https://www.wyndham.vic.gov.au/sites/default/files/2024-05/waste%20calendar.pdf".toList⟩),
   ("waste_guide".toList,
    ⟨"Waste & Recycling Guide 2025–26".toList,
     "https://www.wyndham.vic.gov.au/sites/default/files/2025-06/Waste%20and%20Recycling%20Guide%202025-2026.pdf".toList⟩),
   ("hard_waste".toList,
    ⟨"Hard & Green Waste Collection Service".toList,
     "https://www.wyndham.vic.gov.au/services/waste-recycling/hard-and-green-waste-collection-service".toList⟩),
   ("book_hard_waste".toList,
    ⟨"Book a Hard & Green Waste Collection".toList,
     "https://www.wyndham.vic.gov.au/book-hard-green-waste-collection".toList⟩),
   ("fogo".toList,
    ⟨"Green-lid Bin (FOGO)".toList,
     "https://www.wyndham.vic.gov.au/services/waste-recycling/household-bins/green-lid-bin-food-organics-and-garden-organics-fogo".toList⟩),
   ("bin_requests".toList,
    ⟨"Bin Requests (new, missing, damaged)".toList,
     "https://www.wyndham.vic.gov.au/services/waste-recycling/household-bins/household-bin-services#bin-requests".toList⟩),
   ("recycling_az".toList,
    ⟨"A–Z Interactive Residential Waste Guide".toList,
     "https://www.wyndham.vic.gov.au/services/waste-recycling/a-z-interactive-residential-waste-guide".toList⟩),
   ("transfer_station".toList,
    ⟨"Municipal Tip / RDF (fees, hours)".toList,
     "https://www.wyndham.vic.gov.au/venues/municipal-tiprdf-refuse-disposal-facility".toList⟩),
   ("hazardous_waste".toList,
    ⟨"Other Waste & Recycling (hazardous, Detox Your Home)".toList,
     "https://www.wyndham.vic.gov.au/services/waste-recycling/other-waste-and-recycling-services-initiatives/other-waste-recycling".toList⟩),
   ("rates_home".toList,
    ⟨"Rates & Valuations".toList,
     "https://www.wyndham.vic.gov.au/services/rates-valuations/rates-valuations".toList⟩),
   ("rates_pay".toList,
    ⟨"Rates Payments".toList,
     "https://www.wyndham.vic.gov.au/payments/rates-payments".toList⟩),
   ("rates_hardship".toList,
    ⟨"Difficulty Paying Rates".toList,
     "https://www.wyndham.vic.gov.au/difficulty-paying-rates".toList⟩),
   ("rates_payment_plan".toList,
    ⟨"Rates Payment Plan (form)".toList,
     "https://www.wyndham.vic.gov.au/form/rates-payment-plan".toList⟩),
   ("pet_registration".toList,
    ⟨"Pet Registration & Ownership".toList,
     "https://www.wyndham.vic.gov.au/services/pets-animals/animal-registration-regulations/pet-registration-and-ownership".toList⟩),
   ("animal_permits".toList,
    ⟨"Animal Permits".toList,
     "https://www.wyndham.vic.gov.au/services/pets-animals/animal-registration-regulations/animal-permits".toList⟩),
   ("barking_dog".toList,
    ⟨"Dogs & Cats (complaints, barking, attacks)".toList,
     "https://www.wyndham.vic.gov.au/services/pets-animals/animal-complaints-pests/dogs-and-cats".toList⟩),
   ("parking_permits_regs".toList,
    ⟨"Parking Regulations & Permits".toList,
     "https://www.wyndham.vic.gov.au/services/roads-parking-transport/parking-regulations-fines/parking-regulations-permits".toList⟩),
   ("disability_parking".toList,
    ⟨"Disability Parking Permits".toList,
     "https://www.wyndham.vic.gov.au/services/aged-disability/disability-parking-permits".toList⟩),
   ("parking_fines_pay".toList,
    ⟨"Infringement (Parking Fine) Payments".toList,
     "https://www.wyndham.vic.gov.au/payments/infringement-payments".toList⟩),
   ("parking_fine_review".toList,
    ⟨"Request a Fine Review or Payment Plan".toList,
     "https://www.wyndham.vic.gov.au/services/roads-parking-transport/parking-regulations-fines/request-review-fine-infringement-notice".toList⟩),
   ("report_issue".toList,
    ⟨"Raise a Request or Report an Issue".toList,
     "https://www.wyndham.vic.gov.au/raise-request-or-issue".toList⟩),
   ("noise".toList,
    ⟨"Noise & Odour (what’s allowed, how to report)".toList,
     "https://www.wyndham.vic.gov.au/services/local-laws-permits/laws-permits-residents/noise-odour-pollution".toList⟩),
   ("graffiti".toList,
    ⟨"Graffiti (how Council manages it)".toList,
     "https://theloop.wyndham.vic.gov.au/download_file/view/1773/783".toList⟩),
   ("trees_nature_strips".toList,
    ⟨"Maintaining Your Property (trees, nature strips)".toList,
     "https://www.wyndham.vic.gov.au/services/local-laws-permits/laws-permits-residents/maintaining-your-property".toList⟩),
   ("planning_permits".toList,
    ⟨"Planning Application Process".toList,
     "https://www.wyndham.vic.gov.au/services/building-planning/applying-planning-permit/planning-application-process".toList⟩),
   ("building_permits".toList,
    ⟨"When is a Building Permit Required?".toList,
     "https://www.wyndham.vic.gov.au/services/building-planning/do-i-need-approval/when-building-permit-required".toList⟩),
   ("local_laws".toList,
    ⟨"Local Laws & Permits (Residents)".toList,
     "https://www.wyndham.vic.gov.au/services/local-laws-permits/laws-permits-residents".toList⟩),
   ("libraries".toList,
    ⟨"Libraries (locations, hours, catalogue)".toList,
     "https://www.wyndham.vic.gov.au/services/libraries".toList⟩),
   ("hire_a_space".toList,
    ⟨"Hire a Space (venues & community centres)".toList,
     "https://www.wyndham.vic.gov.au/services/community-centres-venues/hire-space".toList⟩),
   ("sports_bookings".toList,
    ⟨"Sporting Facilities & Reserves for Hire".toList,
     "https://www.wyndham.vic.gov.au/services/sports-parks-recreation/hire-sports-reserve/sporting-facilities-and-reserves-hire".toList⟩),
   ("kindergarten_register".toList,
    ⟨"Register for Kindergarten".toList,
     "https://www.wyndham.vic.gov.au/services/childrens-services/kindergarten/step-3-register-kindergarten".toList⟩),
   ("immunisation".toList,
    ⟨"Immunisation Services".toList,
     "https://www.wyndham.vic.gov.au/services/childrens-services/immunisation".toList⟩),
   ("leisure_centres".toList,
    ⟨"Aquapulse (major leisure centre) & pools".toList,
     "https://www.wyndham.vic.gov.au/services/sports-parks-recreation/major-sporting-leisure-facilities/aquapulse".toList⟩),
   ("foi".toList,
    ⟨"Freedom of Information".toList,
     "https://www.wyndham.vic.gov.au/about-council/your-council/administration/freedom-information-request".toList⟩),
   ("privacy".toList,
    ⟨"Privacy Policy".toList,
     "https://www.wyndham.vic.gov.au/about-council/your-council/administration/privacy-policy".toList⟩),
   ("contact".toList,
    ⟨"Contact Us (phone, hours, after-hours)".toList,
     "https://www.wyndham.vic.gov.au/contact-us".toList⟩)]

/-- `BUILTIN_CATALOG`. -/
def BUILTIN_CATALOG : Catalog :=
  [("Wyndham City Council".toList,
    ⟨some "https://www.wyndham.vic.gov.au".toList, wyndhamTopics⟩)]

end Retriever

namespace Retriever

/-- `TOPIC_SNIPPETS`: short helper lines per topic. -/
def TOPIC_SNIPPETS : List (Str × Str) :=
  [("find_bin_day".toList,
    "You can check your collection day online and confirm upcoming bin schedules.".toList),
   ("book_hard_waste".toList,
    "You can lodge a hard & green waste booking online and see the accepted items list.".toList),
   ("hard_waste".toList,
    "Here’s where to see what’s accepted for hard & green waste, plus how bookings work.".toList),
   ("fogo".toList,
    "Your green-lid (FOGO) bin takes food organics and garden organics. The guide below explains what goes in.".toList),
   ("bin_requests".toList,
    "Use the bin services page for new, missing, damaged or stolen bins, and missed collections.".toList),
   ("recycling_az".toList,
    "Use the A–Z guide to check how to dispose of specific items correctly.".toList),
   ("transfer_station".toList,
    "Tip/RDF details including location, fees and opening hours are here.".toList),
   ("hazardous_waste".toList,
    "For chemicals, batteries and other hazardous items, follow these options.".toList),
   ("rates_pay".toList,
    "You can pay rates online and see payment options and due dates.".toList),
   ("rates_hardship".toList,
    "If you’re having difficulty paying, you can request hardship assistance or a payment plan.".toList),
   ("parking_permits_regs".toList,
    "Parking permits and rules are explained here, with how to apply or renew.".toList),
   ("parking_fines_pay".toList,
    "You can pay infringements online.".toList),
   ("parking_fine_review".toList,
    "You can request a review or payment plan for an infringement here.".toList),
   ("disability_parking".toList,
    "Apply for or renew Disability Parking Permits here.".toList),
   ("pet_registration".toList,
    "Registering/renewing pet registration can be completed online.".toList),
   ("barking_dog".toList,
    "Find guidance and how to report ongoing dog noise or related concerns.".toList),
   ("report_issue".toList,
    "Lodge a request or report an issue directly with Council here.".toList),
   ("noise".toList,
    "This outlines allowed noise times and how to report ongoing noise issues.".toList),
   ("trees_nature_strips".toList,
    "See what’s allowed for nature strips and how to request street tree works.".toList),
   ("planning_permits".toList,
    "Learn when you need a planning permit and how to apply.".toList),
   ("building_permits".toList,
    "Learn when you need a building permit and next steps.".toList),
   ("libraries".toList,
    "Library locations, opening hours and catalogue are here.".toList),
   ("kindergarten_register".toList,
    "Register for kindergarten and see key dates and steps.".toList),
   ("immunisation".toList,
    "See upcoming community immunisation sessions and booking details.".toList),
   ("leisure_centres".toList,
    "Find opening hours, facilities and memberships for Aquapulse and pools.".toList),
   ("foi".toList,
    "Request access to information under Freedom of Information.".toList),
   ("privacy".toList,
    "Council’s privacy policy explains how your information is handled.".toList),
   ("contact".toList,
    "If you need something else, contact details and hours are here.".toList)]

/-- Write `v` at key `k` of an association list (Python `dict` write:
replace in place if present, append otherwise). -/
def dSet {α : Type} : List (Str × α) → Str → α → List (Str × α)
  | [], k, v => [(k, v)]
  | p :: rest, k, v => if p.1 = k then (k, v) :: rest else p :: dSet rest k v

/-- Python truthiness of an optional string (`None` and `""` are falsy). -/
def optTruthy : Option Str → Bool
  | none => false
  | some s => !s.isEmpty

/-- One iteration of the `_deep_merge` loop: merge one override council. -/
def deepMergeOne (out : Catalog) (cv : Str × CouncilData) : Catalog :=
  let out1 :=
    match dGet out cv.1 with
    | none => dSet out cv.1 ⟨cv.2.base, []⟩
    | some cur =>
      if optTruthy cv.2.base then dSet out cv.1 ⟨cv.2.base, cur.topics⟩ else out
  match dGet out1 cv.1 with
  | none => out1
  | some cur1 =>
    dSet out1 cv.1
      ⟨cur1.base, cv.2.topics.foldl (fun ts kv => dSet ts kv.1 kv.2) cur1.topics⟩

/-- `_deep_merge`: deep-merge catalogs where the override wins, per council
and per topic key. -/
def _deep_merge (base override : Catalog) : Catalog :=
  override.foldl deepMergeOne base

/-- `_load_catalog`, with the optional file catalog (already parsed and
normalised; `none` models an absent or unparseable `catalog.json`). -/
def _load_catalog (fileCat : Option Catalog) : Catalog :=
  match fileCat with
  | none => BUILTIN_CATALOG
  | some fc => _deep_merge BUILTIN_CATALOG fc

/-- `r"\bbook(ing)?\b"` (the hard-waste booking boost test). -/
def bookRe : RE := reCat [RE.wb, w "book", reOpt (w "ing"), RE.wb]

/-- The boost condition of `answer`: the text classified `hard_waste`, a
booking page exists, and the text contains a `book`/`booking` word. -/
def boostCond (topicsMap : List (Str × Entry)) (emailText : Str) : Bool :=
  decide ("hard_waste".toList ∈ _classify emailText)
    && (dGet topicsMap "book_hard_waste".toList).isSome
    && pySearch bookRe (pyLower emailText)

/-- The `wanted` topic list of `answer`: `_classify` output, with
`"book_hard_waste"` inserted at the front when the boost condition holds. -/
def wantedOf (topicsMap : List (Str × Entry)) (emailText : Str) : List Str :=
  let wanted := _classify emailText
  if boostCond topicsMap emailText then "book_hard_waste".toList :: wanted else wanted

/-- Does the boost duplicate a topic key: it fires although
`"book_hard_waste"` was already classified.  (This is the only way
`wantedOf` can repeat a key.) -/
def boostDup (topicsMap : List (Str × Entry)) (emailText : Str) : Bool :=
  boostCond topicsMap emailText && decide ("book_hard_waste".toList ∈ _classify emailText)

/-- The per-key candidate of the `links` loop of `answer`: the catalog entry
when present with a truthy url. -/
def lookupEntry (topicsMap : List (Str × Entry)) (k : Str) : Option Entry :=
  match dGet topicsMap k with
  | some info => if info.url.isEmpty then none else some info
  | none => none

/-- The `links` list of `answer`: catalog entries of the wanted topics (with a
truthy url), falling back to the contact entry when nothing matched. -/
def linksOf (topicsMap : List (Str × Entry)) (wanted : List Str) : List Entry :=
  let ls := wanted.filterMap (lookupEntry topicsMap)
  if ls.isEmpty then
    match dGet topicsMap "contact".toList with
    | some e => [e]
    | none => []
  else ls

/-- The `snippet` of `answer`:
`html.escape((email_text or "").strip()[:900]).replace("\n", "<br>")`. -/
def snippetOf (emailText : Str) : Str :=
  brReplace (htmlEscape ((pyStrip emailText).take 900))

/-- The `helper` of `answer`: the first wanted topic with a snippet line. -/
def helperOf (wanted : List Str) : Option Str :=
  wanted.findSome? (fun k => dGet TOPIC_SNIPPETS k)

/-- The `citations` of `answer`: `"title | url"` per link, capped at
`MAX_LINKS`. -/
def citationsOf (links : List Entry) : List Str :=
  (links.take MAX_LINKS).map (fun x => x.title ++ " | ".toList ++ x.url)

/-- The `lis` of `answer`: one escaped anchor list item per link. -/
def lisOf (links : List Entry) : Str :=
  (links.take MAX_LINKS).flatMap (fun x =>
    "<li><a href=\x27".toList ++ htmlEscape x.url ++ "\x27>".toList
      ++ htmlEscape x.title ++ "</a></li>".toList)

/-- The known-council HTML body of `answer` (the f-string template). -/
def answerBody (councilName : Str) (helperHtml lis snippet : Str) : Str :=
  "\n<table role=\"presentation\" width=\"100%\" cellspacing=\"0\" cellpadding=\"0\"\n       style=\"font-family: Arial, \x27Segoe UI\x27, sans-serif; color:#0f172a; line-height:1.55;\">\n  <tr>\n    <td style=\"padding:20px; border:1px solid #e5e7eb; border-radius:12px;\">\n      <div style=\"font-size:18px; font-weight:700;\">".toList
  ++ htmlEscape councilName
  ++ "</div>\n      <div style=\"font-size:12px; color:#64748b; margin-top:2px;\">Auto-drafted reply — please review before sending</div>\n      <hr style=\"border:none; border-top:1px solid #e5e7eb; margin:12px 0 16px 0;\">\n      ".toList
  ++ (if helperHtml.isEmpty then
        "<p style=\x27margin:0 0 10px 0;\x27>Based on your enquiry, these links should help:</p>".toList
      else helperHtml)
  ++ "\n      <ul style=\"margin:0 0 14px 18px; padding:0;\">".toList
  ++ (if lis.isEmpty then "<li>We’ll escalate this to the right team.</li>".toList else lis)
  ++ "</ul>\n      <p style=\"margin:0 0 10px 0;\">Your message:</p>\n      <blockquote style=\"margin:0; padding:12px 14px; background:#f8fafc; border-left:3px solid #0ea5e9; border-radius:6px;\">".toList
  ++ snippet
  ++ "</blockquote>\n      <p style=\"margin:16px 0 0 0;\">Kind regards,<br>Customer Service Team</p>\n    </td>\n  </tr>\n</table>\n".toList

/-- The unknown-council body of `answer`. -/
def genericBody (councilName : Str) : Str :=
  "<p>Thanks for contacting ".toList ++ htmlEscape councilName
  ++ ".</p><p>We’ll escalate this to an officer and follow up shortly.</p>".toList

/-- `answer` for a council found in (or defaulted from) the catalog. -/
def answerCore (council : CouncilData) (councilName emailText : Str) : Str × List Str :=
  let topicsMap := council.topics
  let wanted := wantedOf topicsMap emailText
  let links := linksOf topicsMap wanted
  let helperHtml :=
    match helperOf wanted with
    | some h =>
      "<p style=\x27margin:0 0 10px 0;\x27>".toList ++ htmlEscape h ++ "</p>".toList
    | none => []
  let body := answerBody councilName helperHtml (lisOf links) (snippetOf emailText)
  (body, citationsOf links)

/-- `answer(email_text, council_name)` over a loaded catalog: the
Outlook-safe HTML body and the citation list. -/
def answer (catalog : Catalog) (emailText councilName : Str) : Str × List Str :=
  match dGet catalog councilName with
  | some council => answerCore council councilName emailText
  | none =>
    if strIn "wyndham".toList (pyLower councilName) then
      answerCore ((dGet catalog "Wyndham City Council".toList).getD ⟨none, []⟩)
        "Wyndham City Council".toList emailText
    else (genericBody councilName, [])

end Retriever

namespace Worker

/-- A link dict passed to `build_email_html` (always carrying `title`, `url`). -/
structure Link : Type where
  title : Str
  url : Str
deriving DecidableEq

/-- The `generated` dict returned by the retriever: optional `answer_html`
(absent key modelled as `none`) and a `links` list. -/
structure Generated : Type where
  answer_html : Option Str
  links : List Link

/-- Default `REPLY_SIGNATURE` env value. -/
def REPLY_SIGNATURE_default : Str :=
  "—\nWyndham Information Assistant\n(This is an automated reply)".toList

/-- The joined `items` of `build_email_html`: link anchors built WITHOUT any
escaping of `url`/`title` (transcribed faithfully from the source). -/
def linkItems (links : List Link) : Str :=
  (links.take 6).flatMap (fun l =>
    "<li><a href=\"".toList ++ l.url ++ "\">".toList ++ l.title ++ "</a></li>".toList)

/-- The `links_html` of `build_email_html` (empty when the links list is falsy). -/
def linksHtml (links : List Link) : Str :=
  if links.isEmpty then []
  else "<p><strong>Official links:</strong></p><ul>".toList ++ linkItems links
       ++ "</ul>".toList

/-- The `signature_html` of `build_email_html` (default signature). -/
def signatureHtml : Str :=
  "<p>".toList ++ brReplace REPLY_SIGNATURE_default ++ "</p>".toList

/-- The quoted enquiry rendering of `build_email_html`:
whitespace-collapsed, stripped, `&`/`<`/`>`-escaped — and NOT truncated. -/
def quoteHtml (userBody : Str) : Str :=
  esc3 (pyStrip (collapseWs userBody))

/-- `build_email_html(user_body_text, generated)` (the f-string template,
after its final `.strip()`). -/
def build_email_html (userBody : Str) (gen : Generated) : Str :=
  "<div style=\"font-family:system-ui,Segoe UI,Roboto,Helvetica,Arial,sans-serif;font-size:15px;line-height:1.5\">\n  <p>Hi,</p>\n  ".toList
  ++ gen.answer_html.getD "<p>Thanks for your email.</p>".toList
  ++ "\n  ".toList
  ++ linksHtml gen.links
  ++ "\n  ".toList
  ++ signatureHtml
  ++ "\n  <hr>\n  <p style=\"color:#777\">Original question:</p>\n  <blockquote style=\"margin:0 0 0 1em;color:#555;border-left:3px solid #ddd;padding-left:.8em\">".toList
  ++ quoteHtml userBody
  ++ "</blockquote>\n</div>".toList

end Worker

/-! ## drafts_module.py -/

namespace Drafts

/-- `AMBER_TRIGGERS` of `drafts_module.py`. -/
def AMBER_TRIGGERS : List Str :=
  ["complaint".toList, "unhappy".toList, "delay".toList, "refund".toList, "appeal".toList,
   "escalate".toList, "supervisor".toList, "deadline".toList, "urgent".toList,
   "threat".toList, "media".toList, "ombudsman".toList, "privacy".toList]

/-- `RED_TRIGGERS` of `drafts_module.py`. -/
def RED_TRIGGERS : List Str :=
  ["foi".toList, "freedom of information".toList, "accident".toList, "injury".toList,
   "legal".toList, "threaten".toList, "assault".toList, "payment dispute".toList,
   "chargeback".toList, "personal information request".toList, "vulnerable".toList,
   "danger".toList]

/-- `PII_PATTERNS` of `drafts_module.py` (textually identical to the worker's). -/
def PII_PATTERNS : List RE := [Worker.piiLongId, Worker.piiPhone]

/-- `classify_risk` of `drafts_module.py` (shared body `riskAssess`,
instantiated with this module's trigger tables). -/
def classify_risk (text : Str) : Str × List Str :=
  riskAssess RED_TRIGGERS AMBER_TRIGGERS PII_PATTERNS text

/-- A link dict supplied to `_default_reply` (fields may be empty strings). -/
structure SLink : Type where
  title : Str
  url : Str

/-- Elements of the `links` list in the dict-shaped answer result: a dict
with optional `title`/`url`, a bare string, or anything else (skipped). -/
inductive LinkVal : Type
  | ldict (title url : Option Str) : LinkVal
  | lstr (s : Str) : LinkVal
  | lother : LinkVal

/-- The shapes `build_cited_reply` can receive from `get_answer_fn`:
a nonempty tuple/list whose head is the HTML body (`second` is its second
element when that is a list of strings, `none` otherwise), a dict, a bare
string, or any unrecognised value (including an empty tuple/list). -/
inductive AnswerShape : Type
  | tupleRes (first : Str) (second : Option (List Str)) : AnswerShape
  | dictRes (answer_html html : Option Str) (links : List LinkVal) : AnswerShape
  | strRes (s : Str) : AnswerShape
  | otherRes : AnswerShape

/-- The disclaimer footer appended by `build_cited_reply` / `_default_reply`. -/
def disclaimer : Str :=
  "<p><em>Auto-drafted reply. Please review before sending.</em></p>".toList

/-- Append the disclaimer unless `"Auto-drafted reply"` already occurs. -/
def withDisclaimer (h : Str) : Str :=
  if strIn "Auto-drafted reply".toList h then h else h ++ disclaimer

/-- The joined `items` of `_default_reply` (escaped; links without a truthy
url are skipped). -/
def itemsOf (links : List SLink) : Str :=
  links.flatMap (fun l =>
    if l.url.isEmpty then []
    else "<li><a href=\"".toList ++ htmlEscape l.url ++ "\">".toList
         ++ htmlEscape l.title ++ "</a></li>".toList)

/-- The fixed middle paragraph of `_default_reply`. -/
def defaultBodyText : Str :=
  "<p>We received your enquiry and will get back to you with more detail soon. For common questions about services, permits, rates, and waste collection, please see the links below.</p>".toList

/-- `_default_reply(council_name, links)`.  When `links` is falsy the default
link is built from `council_name.lower().split()[0]`, which raises an
`IndexError` for a blank council name — modelled as `Except.error`. -/
def _default_reply (council : Str) (links : Option (List SLink)) : Except Unit Str :=
  let intro := "<p>Thanks for contacting ".toList ++ htmlEscape council ++ ".</p>".toList
  match links with
  | some (l :: ls) =>
    .ok (intro ++ defaultBodyText ++ "<ul>".toList ++ itemsOf (l :: ls)
         ++ "</ul>".toList ++ disclaimer)
  | _ =>
    match pySplitWs (pyLower council) with
    | [] => .error ()
    | wd :: _ =>
      .ok (intro ++ defaultBodyText ++ "<ul>".toList
           ++ itemsOf [⟨council ++ " services".toList,
                        "https://www.".toList ++ wd ++ ".vic.gov.au/services".toList⟩]
           ++ "</ul>".toList ++ disclaimer)

/-- One citation from one element of a dict-shaped result's `links`. -/
def citeOf : LinkVal → Option Str
  | .ldict title url =>
    match url with
    | some u =>
      if u.isEmpty then none
      else some ((match title with
                  | some t => if t.isEmpty then u else t
                  | none => u) ++ " | ".toList ++ u)
    | none => none
  | .lstr s => some s
  | .lother => none

/-- The in-`try` fallback of `build_cited_reply` (answer function missing or
unrecognised shape): default body plus the `"{council} services | ..."`
citation. -/
def fallbackPair (council : Str) : Except Unit (Str × List Str) :=
  match pySplitWs (pyLower council) with
  | [] => .error ()
  | wd :: _ =>
    match _default_reply council none with
    | .ok d =>
      .ok (d, [council ++ " services | https://www.".toList ++ wd
               ++ ".vic.gov.au/services".toList])
    | .error e => .error e

/-- The body of `build_cited_reply`'s `try` block; `Except.error` models an
exception escaping to the `except` handler. -/
def tryBody (email council : Str)
    (fn : Option (Str → Str → Except Unit AnswerShape)) : Except Unit (Str × List Str) :=
  match fn with
  | none => fallbackPair council
  | some f =>
    match f email council with
    | .error _ => .error ()
    | .ok (.tupleRes first second) => .ok (withDisclaimer first, second.getD [])
    | .ok (.dictRes ah h links) =>
      let htmlBody :=
        if Retriever.optTruthy ah then ah.getD []
        else if Retriever.optTruthy h then h.getD [] else []
      let cits := links.filterMap citeOf
      match (if htmlBody.isEmpty then _default_reply council none else .ok htmlBody) with
      | .error e => .error e
      | .ok hb => .ok (withDisclaimer hb, cits)
    | .ok (.strRes s) => .ok (withDisclaimer s, [])
    | .ok .otherRes => fallbackPair council

/-- `build_cited_reply(email_text, council_name, get_answer_fn)`: the `try`
body with the `except` handler falling back to `_default_reply` (whose own
`IndexError` on a blank council name then escapes uncaught). -/
def build_cited_reply (email council : Str)
    (fn : Option (Str → Str → Except Unit AnswerShape)) : Except Unit (Str × List Str) :=
  match tryBody email council fn with
  | .ok r => .ok r
  | .error _ =>
    match _default_reply council none with
    | .ok d => .ok (d, [])
    | .error e => .error e

end Drafts

/-! ## General lemmas -/

theorem strIn_iff (n h : Str) : strIn n h = true ↔ n <:+: h := by
  unfold strIn
  rw [List.any_eq_true]
  constructor
  · rintro ⟨i, _, hp⟩
    rw [List.isPrefixOf_iff_prefix] at hp
    exact List.infix_iff_prefix_suffix.mpr ⟨h.drop i, hp, List.drop_suffix i h⟩
  · rintro ⟨s, t, rfl⟩
    refine ⟨s.length, ?_, ?_⟩
    · rw [List.mem_range]
      simp [List.length_append]
      omega
    · rw [List.isPrefixOf_iff_prefix, List.append_assoc, List.drop_left]
      exact List.prefix_append n t

theorem strIn_append_right (n a b : Str) (hb : strIn n b = true) :
    strIn n (a ++ b) = true := by
  rw [strIn_iff] at *
  exact hb.trans (List.suffix_append a b).isInfix

theorem riskAssess_red (redL amberL : List Str) (piiL : List RE) (text : Str)
    (h : redL.any (fun k => strIn k (pyLower text)) = true) :
    (riskAssess redL amberL piiL text).1 = "RED".toList ∧
    "High-risk keyword".toList ∈ (riskAssess redL amberL piiL text).2 := by
  unfold riskAssess
  simp only [h, if_true]
  cases hp : piiL.any (fun p => pySearch p (pyLower text)) <;> simp [hp]

theorem riskAssess_clean (redL amberL : List Str) (piiL : List RE) (text : Str)
    (hr : redL.any (fun k => strIn k (pyLower text)) = false)
    (ha : amberL.any (fun k => strIn k (pyLower text)) = false)
    (hp : piiL.any (fun p => pySearch p (pyLower text)) = false) :
    riskAssess redL amberL piiL text =
      ("GREEN".toList, ["No risk triggers detected".toList]) := by
  unfold riskAssess
  simp [hr, ha, hp]

theorem riskAssess_reasons_ne_nil (redL amberL : List Str) (piiL : List RE) (text : Str) :
    (riskAssess redL amberL piiL text).2 ≠ [] := by
  unfold riskAssess
  cases hr : redL.any (fun k => strIn k (pyLower text)) <;>
    cases ha : amberL.any (fun k => strIn k (pyLower text)) <;>
    cases hp : piiL.any (fun p => pySearch p (pyLower text)) <;>
    simp [hr, ha, hp]

/-! ## Claims C1, C2, C7 -/

/-- C1 (amended): under the green-only policy (`AUTO_SEND_ALL` off,
`AUTO_SEND_GREEN` on) the autosend decision is true iff the single
highest-scoring topic selected by `classify_topic` lies in the configured
green-topic set and the risk tier is GREEN; texts matching several topics
are resolved by the score argmax (ties by table order), not blocked. -/
theorem c1_green_only_decision (green : List Str) (text : Str) :
    Worker.greenOnlyDecision green text = true ↔
      ((Worker.classify_topic green text).1 ∈ green ∧
       (Worker.classify_risk text).1 = "GREEN".toList) := by
  unfold Worker.greenOnlyDecision Worker.canAutosend Worker.classify_topic
  simp [Bool.and_eq_true, decide_eq_true_iff]

/-- C1 counterexample: `"bins rates"` matches two topics (`waste` and
`rates`), both in the default green set, yet the green-only decision is
`true` — the claim's "multiple simultaneous topics are never auto-sent" is
false of the code, which auto-sends on the argmax topic. -/
theorem c1_ambiguous_counterexample :
    Worker.matchedTopics "bins rates".toList = ["waste".toList, "rates".toList] ∧
    "waste".toList ∈ Worker.GREEN_TOPICS_default ∧
    "rates".toList ∈ Worker.GREEN_TOPICS_default ∧
    Worker.greenOnlyDecision Worker.GREEN_TOPICS_default "bins rates".toList = true := by
  refine ⟨by decide, by decide, by decide, by decide⟩

/-- C2: any HIGH_RISK (RED) trigger in the text forces tier RED with the
"High-risk keyword" reason, in both `worker_autoreply.classify_risk` and
`drafts_module.classify_risk`, regardless of CAUTION triggers or PII
patterns also present. -/
theorem c2_high_risk_absorbing (text : Str) :
    ((∃ k ∈ Worker.RED_TRIGGERS, strIn k (pyLower text) = true) →
      (Worker.classify_risk text).1 = "RED".toList ∧
      "High-risk keyword".toList ∈ (Worker.classify_risk text).2) ∧
    ((∃ k ∈ Drafts.RED_TRIGGERS, strIn k (pyLower text) = true) →
      (Drafts.classify_risk text).1 = "RED".toList ∧
      "High-risk keyword".toList ∈ (Drafts.classify_risk text).2) := by
  constructor
  · intro h
    exact riskAssess_red _ _ _ _ (List.any_eq_true.mpr h)
  · intro h
    exact riskAssess_red _ _ _ _ (List.any_eq_true.mpr h)

/-- C2 witness: `"legal"` is a RED trigger in both modules and forces RED. -/
theorem c2_high_risk_absorbing_witness :
    (∃ k ∈ Worker.RED_TRIGGERS, strIn k (pyLower "legal".toList) = true) ∧
    (Worker.classify_risk "legal".toList).1 = "RED".toList ∧
    (Drafts.classify_risk "legal".toList).1 = "RED".toList :=
  ⟨by decide,
   ((c2_high_risk_absorbing "legal".toList).1 (by decide)).1,
   ((c2_high_risk_absorbing "legal".toList).2 (by decide)).1⟩

/-- C7 (amended): with no RED trigger, no AMBER trigger and no PII pattern,
`worker_autoreply.classify_risk` returns exactly
`("GREEN", ["No risk triggers detected"])` (the code capitalises the reason
as "No …", not "no …"), and the reasons list is never empty. -/
theorem c7_safe_default (text : Str) :
    ((Worker.RED_TRIGGERS.any (fun k => strIn k (pyLower text)) = false) →
     (Worker.AMBER_TRIGGERS.any (fun k => strIn k (pyLower text)) = false) →
     (Worker.PII_PATTERNS.any (fun p => pySearch p (pyLower text)) = false) →
     Worker.classify_risk text =
       ("GREEN".toList, ["No risk triggers detected".toList])) ∧
    (Worker.classify_risk text).2 ≠ [] := by
  constructor
  · intro hr ha hp
    exact riskAssess_clean _ _ _ _ hr ha hp
  · exact riskAssess_reasons_ne_nil _ _ _ _

/-- C7 witness: the empty text has no triggers and yields the safe default. -/
theorem c7_safe_default_witness :
    (Worker.RED_TRIGGERS.any (fun k => strIn k (pyLower [])) = false) ∧
    (Worker.AMBER_TRIGGERS.any (fun k => strIn k (pyLower [])) = false) ∧
    (Worker.PII_PATTERNS.any (fun p => pySearch p (pyLower [])) = false) ∧
    Worker.classify_risk [] = ("GREEN".toList, ["No risk triggers detected".toList]) :=
  ⟨by decide, by decide, by decide,
   (c7_safe_default []).1 (by decide) (by decide) (by decide)⟩

/-- C7 counterexample: the code's single default reason is capitalised
`"No risk triggers detected"`, so the claim's exact reason string
`"no risk triggers detected"` is not what a trigger-free text receives. -/
theorem c7_reason_capitalisation_counterexample :
    (Worker.RED_TRIGGERS.any (fun k => strIn k (pyLower [])) = false) ∧
    (Worker.AMBER_TRIGGERS.any (fun k => strIn k (pyLower [])) = false) ∧
    (Worker.PII_PATTERNS.any (fun p => pySearch p (pyLower [])) = false) ∧
    Worker.classify_risk [] ≠ ("GREEN".toList, ["no risk triggers detected".toList]) := by
  refine ⟨by decide, by decide, by decide, by decide⟩

/-! ## Classifier lemmas and claim C6 -/

theorem mem_stepHits (t : Str) (r : Str × List RE) (hits : List Str) (x : Str)
    (hx : x ∈ Retriever.stepHits t r hits) : x = r.1 ∨ x ∈ hits := by
  unfold Retriever.stepHits at hx
  split at hx
  · rcases List.mem_append.mp hx with h | h
    · exact Or.inr h
    · exact Or.inl (List.mem_singleton.mp h)
  · exact Or.inr hx

theorem stepHits_nodup (t : Str) (r : Str × List RE) (hits : List Str)
    (h : hits.Nodup) : (Retriever.stepHits t r hits).Nodup := by
  unfold Retriever.stepHits
  split
  case isTrue hc =>
    have hmem : r.1 ∉ hits := by
      intro hm
      simp [hm] at hc
    simpa [List.nodup_append] using ⟨h, hmem⟩
  case isFalse => exact h

theorem stepHits_length (t : Str) (r : Str × List RE) (hits : List Str) :
    (Retriever.stepHits t r hits).length ≤ hits.length + 1 := by
  unfold Retriever.stepHits
  split <;> simp

theorem classifyAux_mem (t : Str) :
    ∀ (rules : List (Str × List RE)) (hits : List Str),
      ∀ x ∈ Retriever.classifyAux t rules hits, x ∈ rules.map Prod.fst ∨ x ∈ hits := by
  intro rules
  induction rules with
  | nil =>
    intro hits x hx
    exact Or.inr (by simpa [Retriever.classifyAux] using hx)
  | cons r rest ih =>
    intro hits x hx
    dsimp only [Retriever.classifyAux] at hx
    split at hx
    · rcases mem_stepHits t r hits x hx with h | h
      · exact Or.inl (by simp [h])
      · exact Or.inr h
    · rcases ih (Retriever.stepHits t r hits) x hx with h | h
      · exact Or.inl (by simp only [List.map_cons, List.mem_cons]; exact Or.inr h)
      · rcases mem_stepHits t r hits x h with h2 | h2
        · exact Or.inl (by simp [h2])
        · exact Or.inr h2

theorem classifyAux_nodup (t : Str) :
    ∀ (rules : List (Str × List RE)) (hits : List Str),
      hits.Nodup → (Retriever.classifyAux t rules hits).Nodup := by
  intro rules
  induction rules with
  | nil => intro hits h; simpa [Retriever.classifyAux] using h
  | cons r rest ih =>
    intro hits h
    dsimp only [Retriever.classifyAux]
    split
    · exact stepHits_nodup t r hits h
    · exact ih _ (stepHits_nodup t r hits h)

theorem classifyAux_length (t : Str) :
    ∀ (rules : List (Str × List RE)) (hits : List Str),
      hits.length ≤ 3 → (Retriever.classifyAux t rules hits).length ≤ 4 := by
  intro rules
  induction rules with
  | nil => intro hits h; simpa [Retriever.classifyAux] using by omega
  | cons r rest ih =>
    intro hits h
    have hlen := stepHits_length t r hits
    dsimp only [Retriever.classifyAux]
    split
    case isTrue => omega
    case isFalse h4 => exact ih _ (by omega)

theorem classifyAux_no_match (t : Str) :
    ∀ (rules : List (Str × List RE)) (hits : List Str),
      (∀ r ∈ rules, r.2.any (fun p => pySearch p t) = false) →
      Retriever.classifyAux t rules hits = hits := by
  intro rules
  induction rules with
  | nil => intro hits _; rfl
  | cons r rest ih =>
    intro hits hno
    have hstep : Retriever.stepHits t r hits = hits := by
      unfold Retriever.stepHits
      rw [hno r (List.mem_cons_self r rest)]
      simp
    dsimp only [Retriever.classifyAux]
    rw [hstep]
    split
    · rfl
    · exact ih hits (fun r2 h2 => hno r2 (List.mem_cons_of_mem r h2))

/-- C6: `_classify` always returns a non-empty, duplicate-free list of at
most 4 topic keys, and returns exactly `["contact"]` when no rule pattern
matches the lower-cased text. -/
theorem c6_classifier_contract (text : Str) :
    (Retriever._classify text ≠ [] ∧
     (Retriever._classify text).Nodup ∧
     (Retriever._classify text).length ≤ 4) ∧
    ((∀ r ∈ Retriever.TOPIC_RULES, ∀ p ∈ r.2, pySearch p (pyLower text) = false) →
      Retriever._classify text = ["contact".toList]) := by
  constructor
  · dsimp only [Retriever._classify]
    split
    case isTrue => exact ⟨by simp, by simp, by simp⟩
    case isFalse hne =>
      refine ⟨by simpa [List.isEmpty_iff] using hne, ?_, ?_⟩
      · exact classifyAux_nodup (pyLower text) Retriever.TOPIC_RULES [] (by simp)
      · exact classifyAux_length (pyLower text) Retriever.TOPIC_RULES [] (by simp)
  · intro hno
    dsimp only [Retriever._classify]
    have h0 : Retriever.classifyAux (pyLower text) Retriever.TOPIC_RULES [] = [] :=
      classifyAux_no_match (pyLower text) Retriever.TOPIC_RULES []
        (fun r hr => List.any_eq_false.mpr (fun p hp => by simp [hno r hr p hp]))
    rw [h0]
    rfl

/-- C6 witness: the empty text matches no rule and classifies as
`["contact"]`, a list that is trivially non-empty, duplicate-free and short. -/
theorem c6_classifier_contract_witness :
    (∀ r ∈ Retriever.TOPIC_RULES, ∀ p ∈ r.2, pySearch p (pyLower []) = false) ∧
    Retriever._classify [] = ["contact".toList] :=
  ⟨by decide, (c6_classifier_contract []).2 (by decide)⟩

/-! ## Escaping lemmas and claims C4, C5 -/

theorem escChar3_no_markup (a : Char) :
    (escChar3 a).all (fun c => !(c == '<') && !(c == '>')) = true := by
  unfold escChar3
  split
  · decide
  · split
    · decide
    · split
      · decide
      · simp_all

theorem escChar_no_markup (a : Char) :
    (escChar a).all (fun c => !(c == '<') && !(c == '>')) = true := by
  unfold escChar
  split
  · decide
  · split
    · decide
    · split
      · decide
      · split
        · decide
        · split
          · decide
          · simp_all

theorem all_flatMap_of_all (f : Char → Str) (p : Char → Bool)
    (hf : ∀ a, (f a).all p = true) :
    ∀ s : Str, (s.flatMap f).all p = true := by
  intro s
  induction s with
  | nil => rfl
  | cons a rest ih => simp only [List.flatMap_cons, List.all_append, hf a, ih, Bool.and_self]

/-- C4 (amended): in both composers the quoted enquiry body is escaped — the
worker's quote (`quoteHtml`) and anything passed through the retriever's
`html.escape` (council name, link titles/urls, snippet) contain no raw `<`
or `>` — but `worker_autoreply.build_email_html` interpolates each link's
`title` and `url` verbatim, with no escaping at all. -/
theorem c4_escaping_status (userBody s : Str) (l : Worker.Link) :
    (Worker.quoteHtml userBody).all (fun c => !(c == '<') && !(c == '>')) = true ∧
    (htmlEscape s).all (fun c => !(c == '<') && !(c == '>')) = true ∧
    Worker.linkItems [l] =
      "<li><a href=\"".toList ++ l.url ++ "\">".toList ++ l.title
        ++ "</a></li>".toList := by
  refine ⟨?_, ?_, ?_⟩
  · exact all_flatMap_of_all escChar3 _ escChar3_no_markup
      (pyStrip (collapseWs userBody))
  · exact all_flatMap_of_all escChar _ escChar_no_markup s
  · simp [Worker.linkItems]

set_option maxRecDepth 100000 in
/-- C4 counterexample: a link title containing markup is interpolated
unescaped into `build_email_html`'s output (and its escaped form is absent),
so externally supplied link titles/urls can inject markup. -/
theorem c4_injection_counterexample :
    strIn "<li><a href=\"https://evil.example/x\"><b>owned</b></a></li>".toList
      (Worker.build_email_html []
        ⟨some "<p>x</p>".toList,
         [⟨"<b>owned</b>".toList, "https://evil.example/x".toList⟩]⟩) = true ∧
    strIn "&lt;b&gt;owned&lt;/b&gt;".toList
      (Worker.build_email_html []
        ⟨some "<p>x</p>".toList,
         [⟨"<b>owned</b>".toList, "https://evil.example/x".toList⟩]⟩) = false := by
  refine ⟨by decide, by decide⟩

theorem noSpace_collapseWs (l : Str) (h : ∀ c ∈ l, isPySpace c = false) :
    collapseWs l = l := by
  induction l with
  | nil => rfl
  | cons a rest ih =>
    rw [collapseWs, h a (List.mem_cons_self a rest)]
    simp only [Bool.false_eq_true, if_false, List.cons.injEq, true_and]
    exact ih (fun c hc => h c (List.mem_cons_of_mem a hc))

theorem noSpace_dropWhile (l : Str) (h : ∀ c ∈ l, isPySpace c = false) :
    l.dropWhile isPySpace = l := by
  cases l with
  | nil => rfl
  | cons a rest => simp [List.dropWhile_cons, h a (List.mem_cons_self a rest)]

theorem noSpace_pyStrip (l : Str) (h : ∀ c ∈ l, isPySpace c = false) :
    pyStrip l = l := by
  unfold pyStrip
  rw [noSpace_dropWhile l h,
      noSpace_dropWhile l.reverse (fun c hc => h c (List.mem_reverse.mp hc)),
      List.reverse_reverse]

theorem esc3_id (l : Str) (h : ∀ c ∈ l, escChar3 c = [c]) : esc3 l = l := by
  induction l with
  | nil => rfl
  | cons a rest ih =>
    unfold esc3
    rw [List.flatMap_cons, h a (List.mem_cons_self a rest)]
    simp only [List.singleton_append, List.cons.injEq, true_and]
    exact ih (fun c hc => h c (List.mem_cons_of_mem a hc))

theorem quoteHtml_replicate_a (n : Nat) :
    Worker.quoteHtml (List.replicate n 'a') = List.replicate n 'a' := by
  have hmem : ∀ c ∈ List.replicate n 'a', c = 'a' :=
    fun c hc => List.eq_of_mem_replicate hc
  unfold Worker.quoteHtml
  rw [noSpace_collapseWs _ (fun c hc => by rw [hmem c hc]; rfl),
      noSpace_pyStrip _ (fun c hc => by rw [hmem c hc]; rfl)]
  exact esc3_id _ (fun c hc => by rw [hmem c hc]; rfl)

theorem isInfix_append_left {x m : Str} (a : Str) (h : x <:+: m) : x <:+: a ++ m :=
  h.trans (List.suffix_append a m).isInfix

theorem quoteHtml_infix (u : Str) (g : Worker.Generated) :
    Worker.quoteHtml u <:+: Worker.build_email_html u g := by
  unfold Worker.build_email_html
  exact (List.suffix_append _ _).isInfix.trans (List.prefix_append _ _).isInfix

/-- C5 counterexample: `build_email_html` applies no truncation to the quoted
enquiry: a 1201-character body is embedded in full, exceeding every cap in
the claimed 800–1200 range. -/
theorem c5_unbounded_quote_counterexample :
    (Worker.quoteHtml (List.replicate 1201 'a')).length = 1201 ∧
    1200 < 1201 ∧
    Worker.quoteHtml (List.replicate 1201 'a') <:+:
      Worker.build_email_html (List.replicate 1201 'a') ⟨none, []⟩ := by
  refine ⟨?_, by omega, quoteHtml_infix _ _⟩
  rw [quoteHtml_replicate_a]
  exact List.length_replicate 1201 'a'

theorem flatMap_length_le (f : Char → Str) (k : Nat) (hf : ∀ c, (f c).length ≤ k) :
    ∀ s : Str, (s.flatMap f).length ≤ k * s.length := by
  intro s
  induction s with
  | nil => simp
  | cons a rest ih =>
    rw [List.flatMap_cons, List.length_append, List.length_cons, Nat.mul_succ,
        Nat.add_comm (k * rest.length) k]
    exact Nat.add_le_add (hf a) ih

theorem flatMap_flatMap (f g : Char → Str) :
    ∀ l : Str, (l.flatMap f).flatMap g = l.flatMap (fun x => (f x).flatMap g) := by
  intro l
  induction l with
  | nil => rfl
  | cons a rest ih => simp only [List.flatMap_cons, List.flatMap_append, ih]

theorem escBr_length_le (c : Char) : ((escChar c).flatMap brChar).length ≤ 6 := by
  unfold escChar
  split
  · decide
  · split
    · decide
    · split
      · decide
      · split
        · decide
        · split
          · decide
          · simp only [List.flatMap_cons, List.flatMap_nil, List.append_nil, brChar]
            split <;> simp

/-- C5 (amended): the retriever's composer truncates the quoted enquiry to
its first 900 characters (within the claimed 800–1200 range) before
escaping, so its quoted section is bounded (by 6·900 characters after
escaping and `<br>` substitution); the worker's `build_email_html` applies
no truncation at all — its quote grows exactly with the input. -/
theorem c5_truncation_status (text : Str) :
    ((pyStrip text).take 900).length ≤ 900 ∧
    (Retriever.snippetOf text).length ≤ 5400 ∧
    ∀ n : Nat, (Worker.quoteHtml (List.replicate n 'a')).length = n := by
  refine ⟨List.length_take_le 900 (pyStrip text), ?_, ?_⟩
  · unfold Retriever.snippetOf brReplace htmlEscape
    rw [flatMap_flatMap]
    calc ((pyStrip text).take 900|>.flatMap (fun x => (escChar x).flatMap brChar)).length
        ≤ 6 * ((pyStrip text).take 900).length :=
          flatMap_length_le _ 6 escBr_length_le _
      _ ≤ 6 * 900 := Nat.mul_le_mul_left 6 (List.length_take_le 900 (pyStrip text))
      _ ≤ 5400 := by omega
  · intro n
    rw [quoteHtml_replicate_a]
    exact List.length_replicate n 'a'

/-! ## Claims C8, C3 -/

/-- C8 (amended): a council identifier absent from the loaded catalog whose
lower-cased form does not contain "wyndham" yields the generic escalation
body and an empty citation list — an ordinary empty result, not an error. -/
theorem c8_unknown_council (catalog : Retriever.Catalog) (text council : Str)
    (h1 : Retriever.dGet catalog council = none)
    (h2 : strIn "wyndham".toList (pyLower council) = false) :
    Retriever.answer catalog text council = (Retriever.genericBody council, []) := by
  unfold Retriever.answer
  rw [h1, h2]
  rfl

/-- C8 witness: the spec's own scenario council `"not-a-real-council"`. -/
theorem c8_unknown_council_witness :
    Retriever.dGet (Retriever._load_catalog none) "not-a-real-council".toList = none ∧
    strIn "wyndham".toList (pyLower "not-a-real-council".toList) = false ∧
    Retriever.answer (Retriever._load_catalog none) "hello".toList
        "not-a-real-council".toList =
      (Retriever.genericBody "not-a-real-council".toList, []) :=
  ⟨by decide, by decide,
   c8_unknown_council (Retriever._load_catalog none) "hello".toList
     "not-a-real-council".toList (by decide) (by decide)⟩

set_option maxRecDepth 100000 in
/-- C8 counterexample: `"wyndham pretend shire"` is not a key of any catalog,
yet the code's substring fallback serves the Wyndham catalog for it and the
citation list is not empty — so "every council identifier not present in any
catalog yields an empty citation list" is false of the code. -/
theorem c8_wyndham_alias_counterexample :
    Retriever.dGet (Retriever._load_catalog none) "wyndham pretend shire".toList = none ∧
    (Retriever.answer (Retriever._load_catalog none) "rates".toList
        "wyndham pretend shire".toList).2 ≠ [] := by
  refine ⟨by decide, by decide⟩

theorem dGet_mem {α : Type} :
    ∀ (m : List (Str × α)) (k : Str) (v : α),
      Retriever.dGet m k = some v → (k, v) ∈ m := by
  intro m
  induction m with
  | nil => intro k v h; cases h
  | cons p rest ih =>
    intro k v h
    rw [Retriever.dGet] at h
    split at h
    case isTrue heq =>
      injection h with h2
      rcases p with ⟨pk, pv⟩
      simp only at heq h2
      subst heq
      subst h2
      exact List.mem_cons_self _ _
    case isFalse =>
      exact List.mem_cons_of_mem _ (ih k v h)

theorem lookupEntry_eq_some (m : List (Str × Retriever.Entry)) (k : Str)
    (e : Retriever.Entry) (h : Retriever.lookupEntry m k = some e) :
    Retriever.dGet m k = some e := by
  unfold Retriever.lookupEntry at h
  cases hmk : Retriever.dGet m k with
  | none => rw [hmk] at h; cases h
  | some info =>
    rw [hmk] at h
    dsimp only at h
    by_cases hu : info.url.isEmpty = true
    · rw [if_pos hu] at h; cases h
    · rw [if_neg hu] at h
      exact h

theorem linksFilter_nodup (m : List (Str × Retriever.Entry))
    (hm : (m.map (fun kv => kv.2.url)).Nodup) :
    ∀ l : List Str, l.Nodup →
      ((l.filterMap (Retriever.lookupEntry m)).map Retriever.Entry.url).Nodup := by
  intro l
  induction l with
  | nil => intro _; simp
  | cons k rest ih =>
    intro hl
    rcases List.nodup_cons.mp hl with ⟨hk, hrest⟩
    rw [List.filterMap_cons]
    cases hke : Retriever.lookupEntry m k with
    | none => exact ih hrest
    | some e =>
      rw [List.map_cons, List.nodup_cons]
      refine ⟨?_, ih hrest⟩
      intro hmem
      rcases List.mem_map.mp hmem with ⟨e2, he2, hurl⟩
      rcases List.mem_filterMap.mp he2 with ⟨k2, hk2, hke2⟩
      have h1 := dGet_mem m k e (lookupEntry_eq_some m k e hke)
      have h2 := dGet_mem m k2 e2 (lookupEntry_eq_some m k2 e2 hke2)
      have heq := List.inj_on_of_nodup_map hm h2 h1 hurl
      have : k2 = k := congrArg Prod.fst heq
      subst this
      exact hk hk2

theorem classify_nodup (text : Str) : (Retriever._classify text).Nodup := by
  dsimp only [Retriever._classify]
  split
  · simp
  · exact classifyAux_nodup _ _ [] (by simp)

theorem wantedOf_nodup (m : List (Str × Retriever.Entry)) (text : Str)
    (h : Retriever.boostDup m text = false) : (Retriever.wantedOf m text).Nodup := by
  dsimp only [Retriever.wantedOf]
  split
  case isTrue hc =>
    rw [List.nodup_cons]
    refine ⟨?_, classify_nodup text⟩
    intro hmem
    unfold Retriever.boostDup at h
    rw [hc] at h
    simp at h
    exact h hmem
  case isFalse => exact classify_nodup text

theorem linksOf_url_nodup (m : List (Str × Retriever.Entry))
    (hm : (m.map (fun kv => kv.2.url)).Nodup) (wanted : List Str)
    (hw : wanted.Nodup) :
    ((Retriever.linksOf m wanted).map Retriever.Entry.url).Nodup := by
  dsimp only [Retriever.linksOf]
  split
  · split <;> simp
  · exact linksFilter_nodup m hm wanted hw

/-- C3 (amended): the resolver performs NO URL de-duplication; instead, the
classified topic-key list is duplicate-free and the built-in catalog maps
distinct keys to distinct URLs, so the resolved links carry pairwise
distinct URLs whenever the hard-waste booking boost does not re-insert an
already-classified `book_hard_waste` key (`boostDup` false) — the boost is
the only source of duplicate URLs. -/
theorem c3_no_url_dedup (text : Str)
    (h : Retriever.boostDup Retriever.wyndhamTopics text = false) :
    ((Retriever.linksOf Retriever.wyndhamTopics
        (Retriever.wantedOf Retriever.wyndhamTopics text)).map
      Retriever.Entry.url).Nodup := by
  have hm : (Retriever.wyndhamTopics.map (fun kv => kv.2.url)).Nodup := by decide
  exact linksOf_url_nodup _ hm _ (wantedOf_nodup _ _ h)

/-- C3 witness: for `"rates"` the boost does not fire and the resolved URLs
are pairwise distinct. -/
theorem c3_no_url_dedup_witness :
    Retriever.boostDup Retriever.wyndhamTopics "rates".toList = false ∧
    ((Retriever.linksOf Retriever.wyndhamTopics
        (Retriever.wantedOf Retriever.wyndhamTopics "rates".toList)).map
      Retriever.Entry.url).Nodup :=
  ⟨by decide, c3_no_url_dedup "rates".toList (by decide)⟩

set_option maxRecDepth 1000000 in
/-- C3 counterexample: for `"book hard waste"` the booking boost re-inserts
`book_hard_waste`, so the resolved links repeat its URL and the citation
list returned by `answer` contains two identical entries — duplicates are
NOT dropped. -/
theorem c3_duplicate_url_counterexample :
    ¬ ((Retriever.linksOf Retriever.wyndhamTopics
          (Retriever.wantedOf Retriever.wyndhamTopics "book hard waste".toList)).map
        Retriever.Entry.url).Nodup ∧
    ¬ ((Retriever.answer (Retriever._load_catalog none) "book hard waste".toList
          "Wyndham City Council".toList).2).Nodup := by
  refine ⟨by decide, by decide⟩

/-! ## Dictionary lemmas and claim C9 -/

namespace Retriever

/-- Merged-catalog read at (council, topic key). -/
def topicGet (cat : Catalog) (c k : Str) : Option Entry :=
  (dGet cat c).bind (fun d => dGet d.topics k)

/-- The topics of council `c` in `cat` (empty when the council is absent). -/
def curTopics (cat : Catalog) (c : Str) : List (Str × Entry) :=
  match dGet cat c with
  | none => []
  | some cur => cur.topics

end Retriever

theorem dGet_dSet_self {α : Type} :
    ∀ (m : List (Str × α)) (k : Str) (v : α),
      Retriever.dGet (Retriever.dSet m k v) k = some v := by
  intro m k v
  induction m with
  | nil => simp [Retriever.dSet, Retriever.dGet]
  | cons p rest ih =>
    rw [Retriever.dSet]
    split
    case isTrue h => rw [Retriever.dGet]; simp
    case isFalse h => rw [Retriever.dGet, if_neg h]; exact ih

theorem dGet_dSet_ne {α : Type} :
    ∀ (m : List (Str × α)) (k : Str) (v : α) (k2 : Str), k2 ≠ k →
      Retriever.dGet (Retriever.dSet m k v) k2 = Retriever.dGet m k2 := by
  intro m k v k2 hne
  have hne' : ¬(k = k2) := fun h => hne h.symm
  induction m with
  | nil => simp [Retriever.dSet, Retriever.dGet, hne']
  | cons p rest ih =>
    by_cases h : p.1 = k
    · simp only [Retriever.dSet, if_pos h, Retriever.dGet, if_neg hne']
      have h2 : ¬(p.1 = k2) := by rw [h]; exact hne'
      rw [if_neg h2]
    · simp only [Retriever.dSet, if_neg h, Retriever.dGet]
      split
      · rfl
      · exact ih

theorem foldl_dSet_not_mem {α : Type} :
    ∀ (l : List (Str × α)) (ts : List (Str × α)) (k : Str),
      k ∉ l.map Prod.fst →
      Retriever.dGet (l.foldl (fun ts kv => Retriever.dSet ts kv.1 kv.2) ts) k =
        Retriever.dGet ts k := by
  intro l
  induction l with
  | nil => intro ts k _; rfl
  | cons p rest ih =>
    intro ts k hk
    simp only [List.map_cons, List.mem_cons, not_or] at hk
    rw [List.foldl_cons, ih _ k hk.2]
    exact dGet_dSet_ne ts p.1 p.2 k hk.1

theorem foldl_dSet_mem {α : Type} :
    ∀ (l : List (Str × α)) (ts : List (Str × α)) (k : Str) (v : α),
      (l.map Prod.fst).Nodup → (k, v) ∈ l →
      Retriever.dGet (l.foldl (fun ts kv => Retriever.dSet ts kv.1 kv.2) ts) k = some v := by
  intro l
  induction l with
  | nil => intro ts k v _ hm; cases hm
  | cons p rest ih =>
    intro ts k v hnd hm
    rw [List.map_cons] at hnd
    rcases List.nodup_cons.mp hnd with ⟨hp, hrest⟩
    rw [List.foldl_cons]
    rcases List.mem_cons.mp hm with h | h
    · have hk : k = p.1 := by rw [← h]
      have hknotin : k ∉ rest.map Prod.fst := by rw [hk]; exact hp
      rw [foldl_dSet_not_mem rest _ k hknotin, ← h]
      exact dGet_dSet_self ts k v
    · exact ih _ k v hrest h

theorem deepMergeOne_other (out : Retriever.Catalog) (cv : Str × Retriever.CouncilData)
    (c : Str) (hne : c ≠ cv.1) :
    Retriever.dGet (Retriever.deepMergeOne out cv) c = Retriever.dGet out c := by
  unfold Retriever.deepMergeOne
  cases h0 : Retriever.dGet out cv.1 with
  | none =>
    dsimp only
    cases h1 : Retriever.dGet (Retriever.dSet out cv.1 ⟨cv.2.base, []⟩) cv.1 with
    | none => exact dGet_dSet_ne out cv.1 _ c hne
    | some cur1 =>
      rw [dGet_dSet_ne _ cv.1 _ c hne]
      exact dGet_dSet_ne out cv.1 _ c hne
  | some cur =>
    dsimp only
    by_cases hb : Retriever.optTruthy cv.2.base = true
    · rw [if_pos hb, dGet_dSet_self out cv.1 _]
      dsimp only
      rw [dGet_dSet_ne _ cv.1 _ c hne]
      exact dGet_dSet_ne out cv.1 _ c hne
    · rw [if_neg hb, h0]
      dsimp only
      exact dGet_dSet_ne out cv.1 _ c hne

theorem deepMerge_not_mem :
    ∀ (ov acc : Retriever.Catalog) (c : Str),
      c ∉ ov.map Prod.fst →
      Retriever.dGet (ov.foldl Retriever.deepMergeOne acc) c = Retriever.dGet acc c := by
  intro ov
  induction ov with
  | nil => intro acc c _; rfl
  | cons p rest ih =>
    intro acc c hc
    simp only [List.map_cons, List.mem_cons, not_or] at hc
    rw [List.foldl_cons, ih _ c hc.2]
    exact deepMergeOne_other acc p c hc.1

theorem deepMergeOne_self (out : Retriever.Catalog) (c : Str)
    (cd : Retriever.CouncilData) :
    ∃ b, Retriever.dGet (Retriever.deepMergeOne out (c, cd)) c =
      some ⟨b, cd.topics.foldl (fun ts kv => Retriever.dSet ts kv.1 kv.2)
              (Retriever.curTopics out c)⟩ := by
  unfold Retriever.deepMergeOne Retriever.curTopics
  cases h0 : Retriever.dGet out c with
  | none =>
    dsimp only
    rw [dGet_dSet_self out c _]
    dsimp only
    exact ⟨cd.base, dGet_dSet_self _ c _⟩
  | some cur =>
    dsimp only
    by_cases hb : Retriever.optTruthy cd.base = true
    · rw [if_pos hb, dGet_dSet_self out c _]
      dsimp only
      exact ⟨cd.base, dGet_dSet_self _ c _⟩
    · rw [if_neg hb, h0]
      dsimp only
      exact ⟨cur.base, dGet_dSet_self _ c _⟩

theorem deepMerge_self_topics :
    ∀ (ov : Retriever.Catalog) (acc : Retriever.Catalog) (c : Str)
      (cd : Retriever.CouncilData) (k : Str),
      (ov.map Prod.fst).Nodup → (c, cd) ∈ ov →
      Retriever.topicGet (ov.foldl Retriever.deepMergeOne acc) c k =
        Retriever.dGet
          (cd.topics.foldl (fun ts kv => Retriever.dSet ts kv.1 kv.2)
            (Retriever.curTopics acc c)) k := by
  intro ov
  induction ov with
  | nil => intro acc c cd k _ hm; cases hm
  | cons p rest ih =>
    intro acc c cd k hnd hm
    rw [List.map_cons] at hnd
    rcases List.nodup_cons.mp hnd with ⟨hp, hrest⟩
    rw [List.foldl_cons]
    rcases List.mem_cons.mp hm with h | h
    · have hc : c ∉ rest.map Prod.fst := by
        have : p.1 = c := by rw [← h]
        rw [← this]; exact hp
      unfold Retriever.topicGet
      rw [deepMerge_not_mem rest _ c hc, ← h]
      rcases deepMergeOne_self acc c cd with ⟨b, hb⟩
      rw [hb]
      rfl
    · have hc : p.1 ≠ c := by
        intro he
        apply hp
        rw [he]
        exact List.mem_map.mpr ⟨(c, cd), h, rfl⟩
      rw [ih _ c cd k hrest h]
      have hacc : Retriever.curTopics (Retriever.deepMergeOne acc p) c =
          Retriever.curTopics acc c := by
        unfold Retriever.curTopics
        rw [deepMergeOne_other acc p c (fun he => hc he.symm)]
      rw [hacc]

theorem topicGet_curTopics (cat : Retriever.Catalog) (c k : Str) :
    Retriever.dGet (Retriever.curTopics cat c) k = Retriever.topicGet cat c k := by
  unfold Retriever.curTopics Retriever.topicGet
  cases Retriever.dGet cat c <;> rfl

/-- C9: `_deep_merge` is last-writer-wins at (council, topic key)
granularity: every (council, key) entry of the override lands in the merged
catalog; a council absent from the override keeps its entire entry; and for
a council present in the override, every key the override does not mention
still resolves exactly as in the base catalog — no wholesale replacement. -/
theorem c9_merge_last_writer_wins (base ov : Retriever.Catalog) (c : Str)
    (cd : Retriever.CouncilData) (k : Str) (v : Retriever.Entry)
    (hov : (ov.map Prod.fst).Nodup) (htop : (cd.topics.map Prod.fst).Nodup) :
    ((c, cd) ∈ ov → (k, v) ∈ cd.topics →
      Retriever.topicGet (Retriever._deep_merge base ov) c k = some v) ∧
    ((c, cd) ∈ ov → k ∉ cd.topics.map Prod.fst →
      Retriever.topicGet (Retriever._deep_merge base ov) c k =
        Retriever.topicGet base c k) ∧
    (c ∉ ov.map Prod.fst →
      Retriever.dGet (Retriever._deep_merge base ov) c = Retriever.dGet base c) := by
  refine ⟨?_, ?_, ?_⟩
  · intro hmem hkv
    rw [Retriever._deep_merge, deepMerge_self_topics ov base c cd k hov hmem]
    exact foldl_dSet_mem cd.topics _ k v htop hkv
  · intro hmem hk
    rw [Retriever._deep_merge, deepMerge_self_topics ov base c cd k hov hmem,
        foldl_dSet_not_mem cd.topics _ k hk]
    exact topicGet_curTopics base c k
  · exact deepMerge_not_mem ov base c

/-- The council data of the demo file catalog below: it overrides the
built-in Wyndham `contact` entry and adds a new key. -/
def mergeDemoData : Retriever.CouncilData :=
  ⟨none,
   [("contact".toList, ⟨"New Contact".toList, "https://example.org/contact".toList⟩),
    ("newkey".toList, ⟨"New Page".toList, "https://example.org/new".toList⟩)]⟩

/-- A small file catalog used to witness the merge claim. -/
def mergeDemoOverride : Retriever.Catalog :=
  [("Wyndham City Council".toList, mergeDemoData)]

/-- C9 witness: merging the demo override over the built-in catalog replaces
the overridden `contact` entry and leaves `rates_home` untouched. -/
theorem c9_merge_last_writer_wins_witness :
    ((mergeDemoOverride.map Prod.fst).Nodup ∧
     ("Wyndham City Council".toList, mergeDemoData) ∈ mergeDemoOverride) ∧
    Retriever.topicGet (Retriever._deep_merge Retriever.BUILTIN_CATALOG mergeDemoOverride)
        "Wyndham City Council".toList "contact".toList =
      some ⟨"New Contact".toList, "https://example.org/contact".toList⟩ ∧
    Retriever.topicGet (Retriever._deep_merge Retriever.BUILTIN_CATALOG mergeDemoOverride)
        "Wyndham City Council".toList "rates_home".toList =
      Retriever.topicGet Retriever.BUILTIN_CATALOG
        "Wyndham City Council".toList "rates_home".toList :=
  ⟨⟨by decide, by decide⟩,
   (c9_merge_last_writer_wins Retriever.BUILTIN_CATALOG mergeDemoOverride
      "Wyndham City Council".toList mergeDemoData "contact".toList
      ⟨"New Contact".toList, "https://example.org/contact".toList⟩
      (by decide) (by decide)).1 (by decide) (by decide),
   ((c9_merge_last_writer_wins Retriever.BUILTIN_CATALOG mergeDemoOverride
      "Wyndham City Council".toList mergeDemoData "rates_home".toList
      ⟨"x".toList, "y".toList⟩ (by decide) (by decide)).2).1
     (by decide) (by decide)⟩

/-! ## Claim C10 -/

theorem withDisclaimer_contains (h : Str) :
    strIn "Auto-drafted reply".toList (Drafts.withDisclaimer h) = true := by
  unfold Drafts.withDisclaimer
  split
  case isTrue hc => exact hc
  case isFalse => exact strIn_append_right _ h _ (by decide)

theorem defaultReply_ok (council wd : Str) (rest : List Str)
    (hs : pySplitWs (pyLower council) = wd :: rest) :
    ∃ d, Drafts._default_reply council none = Except.ok d ∧
      strIn "Auto-drafted reply".toList d = true := by
  unfold Drafts._default_reply
  dsimp only
  rw [hs]
  dsimp only
  refine ⟨_, rfl, ?_⟩
  exact strIn_append_right _ _ _ (by decide)

/-- C10 (amended): whenever the council name is non-blank (its lower-cased
whitespace split is non-empty), `build_cited_reply` returns an HTML body
containing the human-review disclaimer substring "Auto-drafted reply" for
every possible answer-function outcome: tuple/list, dict, bare string,
unrecognised shape, raised exception, or absent function. -/
theorem c10_disclaimer (email council : Str)
    (fn : Option (Str → Str → Except Unit Drafts.AnswerShape))
    (hs : pySplitWs (pyLower council) ≠ []) :
    ∃ body cits, Drafts.build_cited_reply email council fn = Except.ok (body, cits) ∧
      strIn "Auto-drafted reply".toList body = true := by
  obtain ⟨wd, rest, hsr⟩ : ∃ wd rest, pySplitWs (pyLower council) = wd :: rest := by
    cases hh : pySplitWs (pyLower council) with
    | nil => exact absurd hh hs
    | cons a b => exact ⟨a, b, rfl⟩
  obtain ⟨d, hd, hdin⟩ := defaultReply_ok council wd rest hsr
  have hfb : Drafts.fallbackPair council =
      Except.ok (d, [council ++ " services | https://www.".toList ++ wd
                     ++ ".vic.gov.au/services".toList]) := by
    unfold Drafts.fallbackPair
    rw [hsr]
    dsimp only
    rw [hd]
  unfold Drafts.build_cited_reply
  cases fn with
  | none =>
    have ht : Drafts.tryBody email council none = Except.ok
        (d, [council ++ " services | https://www.".toList ++ wd
             ++ ".vic.gov.au/services".toList]) := by
      unfold Drafts.tryBody
      exact hfb
    rw [ht]
    exact ⟨d, _, rfl, hdin⟩
  | some f =>
    cases hres : f email council with
    | error e =>
      have ht : Drafts.tryBody email council (some f) = Except.error () := by
        unfold Drafts.tryBody
        dsimp only
        rw [hres]
      rw [ht]
      dsimp only
      rw [hd]
      exact ⟨d, [], rfl, hdin⟩
    | ok shape =>
      cases shape with
      | tupleRes first second =>
        have ht : Drafts.tryBody email council (some f) =
            Except.ok (Drafts.withDisclaimer first, second.getD []) := by
          unfold Drafts.tryBody
          dsimp only
          rw [hres]
        rw [ht]
        exact ⟨Drafts.withDisclaimer first, second.getD [], rfl,
               withDisclaimer_contains first⟩
      | dictRes ah h links =>
        by_cases he :
            (if Retriever.optTruthy ah then ah.getD []
             else if Retriever.optTruthy h then h.getD [] else []).isEmpty = true
        · have ht : Drafts.tryBody email council (some f) =
              Except.ok (Drafts.withDisclaimer d, links.filterMap Drafts.citeOf) := by
            unfold Drafts.tryBody
            dsimp only
            rw [hres]
            dsimp only
            rw [if_pos he, hd]
          rw [ht]
          exact ⟨_, _, rfl, withDisclaimer_contains d⟩
        · have ht : Drafts.tryBody email council (some f) =
              Except.ok (Drafts.withDisclaimer
                  (if Retriever.optTruthy ah then ah.getD []
                   else if Retriever.optTruthy h then h.getD [] else []),
                links.filterMap Drafts.citeOf) := by
            unfold Drafts.tryBody
            dsimp only
            rw [hres]
            dsimp only
            rw [if_neg he]
          rw [ht]
          exact ⟨_, _, rfl, withDisclaimer_contains _⟩
      | strRes s =>
        have ht : Drafts.tryBody email council (some f) =
            Except.ok (Drafts.withDisclaimer s, []) := by
          unfold Drafts.tryBody
          dsimp only
          rw [hres]
        rw [ht]
        exact ⟨Drafts.withDisclaimer s, [], rfl, withDisclaimer_contains s⟩
      | otherRes =>
        have ht : Drafts.tryBody email council (some f) = Except.ok
            (d, [council ++ " services | https://www.".toList ++ wd
                 ++ ".vic.gov.au/services".toList]) := by
          unfold Drafts.tryBody
          dsimp only
          rw [hres]
          exact hfb
        rw [ht]
        exact ⟨d, _, rfl, hdin⟩

/-- C10 witness: with a real council name and no answer function, the reply
is produced and carries the disclaimer. -/
theorem c10_disclaimer_witness :
    pySplitWs (pyLower "Wyndham City Council".toList) ≠ [] ∧
    ∃ body cits,
      Drafts.build_cited_reply "hello".toList "Wyndham City Council".toList none =
        Except.ok (body, cits) ∧
      strIn "Auto-drafted reply".toList body = true :=
  ⟨by decide,
   c10_disclaimer "hello".toList "Wyndham City Council".toList none (by decide)⟩

/-- C10 counterexample: with a blank council name and no answer function,
`_default_reply`'s `council_name.lower().split()[0]` raises an `IndexError`
(in the `except` handler itself), so `build_cited_reply` raises instead of
returning a body — the claim fails for this in-scope input. -/
theorem c10_blank_council_counterexample :
    Drafts.build_cited_reply "hi".toList [] none = Except.error () := by
  rfl
